import Mathlib

set_option maxRecDepth 10000

/-!
Shallow embedding of the bkash-js payment client library, covering the
retry executor (`src/services/retry-service.ts`, duplicated as
`BkashPayment.retryOperation` in `src/bkash.ts`), the token manager
(`src/services/token-manager.ts`), the payment / transaction / refund
request services, and the webhook handler
(`src/services/webhook-service.ts`).

Modelling conventions:
* Promises that resolve/reject become `Except` values; `throw x` with a
  possibly-null `x` becomes `Except (Option ε)`.
* Side effects of one call (events emitted on the `bkash:event` channel,
  HTTP posts issued, token-manager look-ups, schema validations run) are
  collected in a `Trace`; `setTimeout` sleeps are summed in a `slept`
  field (milliseconds).
* The upstream HTTP gateway and the zod validation library are external
  collaborators; their per-attempt outcomes are supplied as an
  environment (`OpEnv`).  An `AxiosError`'s `response?.data` payload is
  kept as an opaque `Option String`.
* JS truthiness on strings (`""` is falsy) and on numbers (`0` is falsy,
  as in `expires_in || 3600`) is modelled explicitly.
* Machine time (`Date.now()`, `new Date()`) is a `Nat` millisecond clock
  supplied per call.
-/

deriving instance DecidableEq for Except

namespace Bkash

/-- Details attached to a `BkashError` (`error instanceof AxiosError ?
error.response?.data : error` at every catch site). -/
inductive ErrDetails where
  | noDetails
  | upstream (body : Option String)
  | validationErr
  | thrownError (message code : String)
deriving DecidableEq, Repr

/-- The `BkashError` class of `src/types/types.ts`: a message, a stable
`code` string and opaque details. -/
structure BkashError where
  message : String
  code : String
  details : ErrDetails
deriving DecidableEq, Repr

/-- `ExecutePaymentResponse` of `src/types/types.ts` (fields the library
reads or forwards). -/
structure ExecutePaymentResponse where
  paymentID : String
  statusCode : String
  statusMessage : String
  customerMsisdn : String
  payerReference : String
  paymentExecuteTime : String
  trxID : String
  transactionStatus : String
  amount : String
  currency : String
  intent : String
  merchantInvoiceNumber : String
deriving DecidableEq, Repr

/-- `CreatePaymentResponse` of `src/types/types.ts`. -/
structure CreatePaymentResponse where
  paymentID : String
  paymentCreateTime : String
  transactionStatus : String
  amount : String
  currency : String
  intent : String
  merchantInvoiceNumber : String
  bkashURL : String
  callbackURL : String
  successCallbackURL : String
  failureCallbackURL : String
  cancelledCallbackURL : String
  statusCode : String
  statusMessage : String
deriving DecidableEq, Repr

/-- The backward-compatibility `PaymentResponse` of `src/types/types.ts`. -/
structure PaymentResponse where
  paymentID : String
  bkashURL : String
  statusCode : String
  statusMessage : String
  paymentExecuteTime : Option String
  trxID : Option String
  amount : String
  currency : String
  intent : String
  merchantInvoiceNumber : String
  paymentCreateTime : Option String
  paymentRef : Option String
  payerReference : Option String
  transactionStatus : Option String
  callbackURL : Option String
  successCallbackURL : Option String
  failureCallbackURL : Option String
  cancelledCallbackURL : Option String
deriving DecidableEq, Repr

/-- `QueryPaymentResponse` of `src/types/types.ts`. -/
structure QueryPaymentResponse where
  statusCode : String
  statusMessage : String
  paymentID : String
  transactionStatus : String
  amount : String
  currency : String
  userVerificationStatus : String
deriving DecidableEq, Repr

/-- `TransactionStatus` of `src/types/types.ts`. -/
structure TransactionStatus where
  statusCode : String
  statusMessage : String
  paymentID : String
  trxID : String
  amount : String
  currency : String
  transactionStatus : String
  paymentExecuteTime : String
deriving DecidableEq, Repr

/-- `SearchTransactionResponse` of `src/types/types.ts` (fields used by
`searchTransactionLegacy`'s mapping). -/
structure SearchTransactionResponse where
  statusCode : String
  statusMessage : String
  trxID : String
  transactionStatus : String
  transactionType : String
  amount : String
  currency : String
  customerMsisdn : String
  organizationShortCode : String
  initiationTime : String
  completedTime : String
deriving DecidableEq, Repr

/-- `LegacySearchTransactionResponse`: the shape synthesized by
`searchTransactionLegacy`. -/
structure LegacySearchTransactionResponse where
  statusCode : String
  statusMessage : String
  paymentID : String
  trxID : String
  amount : String
  currency : String
  transactionStatus : String
  paymentExecuteTime : String
  merchantInvoiceNumber : String
deriving DecidableEq, Repr

/-- `RefundData` of `src/types/types.ts` (the canonical v2 refund body). -/
structure RefundData where
  paymentId : String
  trxId : String
  refundAmount : String
  sku : String
  reason : String
deriving DecidableEq, Repr

/-- `RefundResponse` of `src/types/types.ts`. -/
structure RefundResponse where
  originalTrxId : String
  refundTrxId : String
  refundTransactionStatus : String
  originalTrxAmount : String
  refundAmount : String
  currency : String
  completedTime : String
  sku : String
  reason : String
deriving DecidableEq, Repr

/-- `RefundStatusRequest` of `src/types/types.ts`. -/
structure RefundStatusRequest where
  paymentId : String
  trxId : String
deriving DecidableEq, Repr

/-- One entry of `RefundStatusResponse.refundTransactions`. -/
structure RefundTransaction where
  refundTrxId : String
  refundTransactionStatus : String
  refundAmount : String
  completedTime : String
deriving DecidableEq, Repr

/-- `RefundStatusResponse` of `src/types/types.ts`. -/
structure RefundStatusResponse where
  originalTrxId : String
  originalTrxAmount : String
  originalTrxCompletedTime : String
  refundTransactions : List RefundTransaction
deriving DecidableEq, Repr

/-- Payload of an event published on the `bkash:event` channel. -/
inductive EventData where
  | payment (r : PaymentResponse)
  | created (r : CreatePaymentResponse)
  | executed (r : ExecutePaymentResponse)
  | refunded (r : RefundResponse)
  | refundStatus (req : RefundStatusRequest) (res : RefundStatusResponse)
  | errInfo (d : ErrDetails)
deriving DecidableEq, Repr

/-- An event published on the `bkash:event` channel: `{type, data,
timestamp}` (the timestamp carries no information in the model). -/
structure BkashEvent where
  type : String
  data : EventData
deriving DecidableEq, Repr

/-- Observable side effects of (part of) one library call: events
published, calls to `tokenManager.getToken`, service HTTP posts, grant
HTTP posts issued by the token manager, schema validations run, and the
refund request bodies posted to the refund endpoint. -/
structure Trace where
  events : List BkashEvent := []
  tokenCalls : Nat := 0
  httpCalls : Nat := 0
  grantHttpCalls : Nat := 0
  validations : Nat := 0
  refundBodies : List RefundData := []
deriving DecidableEq, Repr

/-- The empty trace. -/
def Trace.empty : Trace := {}

/-- Sequential composition of traces. -/
def Trace.append (t u : Trace) : Trace :=
  { events := t.events ++ u.events
    tokenCalls := t.tokenCalls + u.tokenCalls
    httpCalls := t.httpCalls + u.httpCalls
    grantHttpCalls := t.grantHttpCalls + u.grantHttpCalls
    validations := t.validations + u.validations
    refundBodies := t.refundBodies ++ u.refundBodies }

/-- Result of running an operation through the retry executor: the
resolved value or the re-raised last error (`none` models `throw null`
when no attempt ran), the accumulated trace, and the total milliseconds
slept in backoff. -/
structure RunOutcome (ε α : Type) where
  result : Except (Option ε) α
  trace : Trace
  slept : Nat
deriving Repr, DecidableEq

/-- The retry loop of `RetryService.retryOperation`
(`src/services/http-client.ts`, identical to
`BkashPayment.retryOperation` in `src/bkash.ts`), unrolled from a given
attempt number.  `remaining` is the number of loop iterations left
(`maxRetries - attempt + 1` at entry); the per-attempt behaviour of the
wrapped async closure is `op`.  After a failed attempt that is not the
last one the loop sleeps `delayMs * attempt` (linear backoff). -/
def retryFrom {ε α : Type} (op : Nat → Except ε α × Trace) (maxRetries delayMs : Nat) :
    Nat → Nat → Option ε → RunOutcome ε α
  | _attempt, 0, lastError => ⟨.error lastError, Trace.empty, 0⟩
  | attempt, remaining + 1, _lastError =>
    match op attempt with
    | (.ok v, tr) => ⟨.ok v, tr, 0⟩
    | (.error e, tr) =>
      let sleep := if attempt < maxRetries then delayMs * attempt else 0
      let rest := retryFrom op maxRetries delayMs (attempt + 1) remaining (some e)
      ⟨rest.result, tr.append rest.trace, sleep + rest.slept⟩

/-- `retryOperation(operation)`: run the loop for attempts
`1..maxRetries`; on exhaustion re-raise the last captured error. -/
def retryOperation {ε α : Type} (op : Nat → Except ε α × Trace) (maxRetries delayMs : Nat) :
    RunOutcome ε α :=
  retryFrom op maxRetries delayMs 1 maxRetries none

/-- `GrantTokenResponse` as observed at runtime by
`TokenManager.getToken`: `id_token` and `expires_in` may be absent even
though the TS type declares them (the code guards both with JS
truthiness). -/
structure GrantTokenResponse where
  id_token : Option String
  expires_in : Option Nat
deriving DecidableEq, Repr

/-- The token manager's mutable cache: `private token: string | null`
and `private tokenExpiry: Date | null` (expiry as a millisecond
timestamp). -/
structure TokenState where
  token : Option String
  tokenExpiry : Option Nat
deriving DecidableEq, Repr

/-- `this.token && this.tokenExpiry && this.tokenExpiry > new Date()`:
both cache fields set (the token a truthy, i.e. nonempty, string) and
the expiry strictly in the future. -/
def tokenCacheValid (st : TokenState) (now : Nat) : Bool :=
  match st.token, st.tokenExpiry with
  | some t, some e => t != "" && decide (now < e)
  | _, _ => false

/-- `tokenData.expires_in || 3600`: the declared lifetime in seconds,
with JS falsiness sending both an absent and a zero `expires_in` to the
3600-second default. -/
def effectiveExpiresIn (r : GrantTokenResponse) : Nat :=
  match r.expires_in with
  | none => 3600
  | some n => if n = 0 then 3600 else n

/-- One attempt of the acquisition closure inside
`TokenManager.getToken`: POST `/tokenized/checkout/token/grant`
(outcome supplied by `upstream`, an `AxiosError` body kept opaque); a
missing or empty `id_token` raises `BkashError('No token received from
bKash', 'TOKEN_ERROR')`, otherwise the cache is overwritten with the new
token and `Date.now() + expiresIn * 1000`.  Every failure is wrapped by
the catch into `BkashError('Failed to get bKash token', 'TOKEN_ERROR',
details)`.  On success the attempt returns the token together with the
cache state it wrote. -/
def grantTokenAttempt (now : Nat) (upstream : Nat → Except (Option String) GrantTokenResponse)
    (attempt : Nat) : Except BkashError (String × TokenState) × Trace :=
  match upstream attempt with
  | .error body =>
    (.error ⟨"Failed to get bKash token", "TOKEN_ERROR", .upstream body⟩,
     { grantHttpCalls := 1 })
  | .ok tokenData =>
    match tokenData.id_token with
    | none =>
      (.error ⟨"Failed to get bKash token", "TOKEN_ERROR",
         .thrownError "No token received from bKash" "TOKEN_ERROR"⟩,
       { grantHttpCalls := 1 })
    | some t =>
      if t = "" then
        (.error ⟨"Failed to get bKash token", "TOKEN_ERROR",
           .thrownError "No token received from bKash" "TOKEN_ERROR"⟩,
         { grantHttpCalls := 1 })
      else
        (.ok (t, ⟨some t, some (now + effectiveExpiresIn tokenData * 1000)⟩),
         { grantHttpCalls := 1 })

/-- Outcome of one `getToken()` call: the resolved token or rejection,
the cache state afterwards, the trace, and the backoff slept. -/
structure GetTokenRun where
  result : Except (Option BkashError) String
  state : TokenState
  trace : Trace
  slept : Nat
deriving Repr, DecidableEq

/-- `TokenManager.getToken` (`src/services/token-manager.ts`): return
the cached token while it is valid, otherwise run the acquisition
closure through the retry executor; only a successful attempt writes the
cache. -/
def getToken (st : TokenState) (now : Nat)
    (upstream : Nat → Except (Option String) GrantTokenResponse)
    (maxRetries delayMs : Nat) : GetTokenRun :=
  if tokenCacheValid st now then
    ⟨.ok (st.token.getD ""), st, Trace.empty, 0⟩
  else
    let run := retryOperation (grantTokenAttempt now upstream) maxRetries delayMs
    match run.result with
    | .ok (t, st') => ⟨.ok t, st', run.trace, run.slept⟩
    | .error e => ⟨.error e, st, run.trace, run.slept⟩

/-- Per-attempt environment of a request-service operation: whether the
zod schema accepts the input (the validation library is an external
collaborator), the outcome of `tokenManager.getToken()` (a rejection is
a `BkashError`, `TOKEN_ERROR` in practice), and the outcome of the HTTP
post (an `AxiosError`'s `response?.data` body kept opaque). -/
structure OpEnv (ρ : Type) where
  validationOk : Bool
  token : Except BkashError String
  http : Except (Option String) ρ
deriving Repr

/-- `error instanceof AxiosError ? error.response?.data : error` for the
three kinds of error that can escape the `try` block of a service
operation: a zod validation error, a `BkashError` thrown by `getToken`,
or an `AxiosError`. -/
def detailsOfValidation : ErrDetails := .validationErr

/-- One attempt of `PaymentService.createPayment`: validate, get a
token, POST `/tokenized/checkout/create`, map the response into the
backward-compatible `PaymentResponse`, publish `payment.created` and
resolve; any failure is wrapped into
`BkashError('Failed to create payment', 'PAYMENT_CREATE_ERROR',
details)` with no event published. -/
def createPaymentAttempt (paymentData_payerReference : String)
    (env : Nat → OpEnv CreatePaymentResponse) (attempt : Nat) :
    Except BkashError PaymentResponse × Trace :=
  let e := env attempt
  if e.validationOk = false then
    (.error ⟨"Failed to create payment", "PAYMENT_CREATE_ERROR", .validationErr⟩,
     { validations := 1 })
  else
    match e.token with
    | .error te =>
      (.error ⟨"Failed to create payment", "PAYMENT_CREATE_ERROR",
         .thrownError te.message te.code⟩,
       { validations := 1, tokenCalls := 1 })
    | .ok _tok =>
      match e.http with
      | .error body =>
        (.error ⟨"Failed to create payment", "PAYMENT_CREATE_ERROR", .upstream body⟩,
         { validations := 1, tokenCalls := 1, httpCalls := 1 })
      | .ok r =>
        let paymentResponse : PaymentResponse :=
          { paymentID := r.paymentID
            bkashURL := r.bkashURL
            statusCode := r.statusCode
            statusMessage := r.statusMessage
            paymentExecuteTime := none
            trxID := none
            amount := r.amount
            currency := r.currency
            intent := r.intent
            merchantInvoiceNumber := r.merchantInvoiceNumber
            paymentCreateTime := some r.paymentCreateTime
            paymentRef := none
            payerReference := some paymentData_payerReference
            transactionStatus := some r.transactionStatus
            callbackURL := some r.callbackURL
            successCallbackURL := some r.successCallbackURL
            failureCallbackURL := some r.failureCallbackURL
            cancelledCallbackURL := some r.cancelledCallbackURL }
        (.ok paymentResponse,
         { validations := 1, tokenCalls := 1, httpCalls := 1,
           events := [⟨"payment.created", .payment paymentResponse⟩] })

/-- `PaymentService.createPayment` (`unnamed/part_010`): the attempt
closure run through the retry executor. -/
def createPayment (payerReference : String) (env : Nat → OpEnv CreatePaymentResponse)
    (maxRetries delayMs : Nat) : RunOutcome BkashError PaymentResponse :=
  retryOperation (createPaymentAttempt payerReference env) maxRetries delayMs

/-- One attempt of `PaymentService.executePayment`: validate the
payment ID, get a token, POST `/tokenized/checkout/execute`; on an HTTP
success publish `payment.success` exactly when the response's
`statusCode` is `'0000'` and `payment.failed` otherwise, and resolve
with the response; on any failure publish `payment.failed` carrying the
error details and reject with
`BkashError('Failed to execute payment', 'PAYMENT_EXECUTE_ERROR',
details)`. -/
def executePaymentAttempt (env : Nat → OpEnv ExecutePaymentResponse) (attempt : Nat) :
    Except BkashError ExecutePaymentResponse × Trace :=
  let e := env attempt
  if e.validationOk = false then
    (.error ⟨"Failed to execute payment", "PAYMENT_EXECUTE_ERROR", .validationErr⟩,
     { validations := 1, events := [⟨"payment.failed", .errInfo .validationErr⟩] })
  else
    match e.token with
    | .error te =>
      (.error ⟨"Failed to execute payment", "PAYMENT_EXECUTE_ERROR",
         .thrownError te.message te.code⟩,
       { validations := 1, tokenCalls := 1,
         events := [⟨"payment.failed", .errInfo (.thrownError te.message te.code)⟩] })
    | .ok _tok =>
      match e.http with
      | .error body =>
        (.error ⟨"Failed to execute payment", "PAYMENT_EXECUTE_ERROR", .upstream body⟩,
         { validations := 1, tokenCalls := 1, httpCalls := 1,
           events := [⟨"payment.failed", .errInfo (.upstream body)⟩] })
      | .ok r =>
        (.ok r,
         { validations := 1, tokenCalls := 1, httpCalls := 1,
           events := [⟨if r.statusCode = "0000" then "payment.success" else "payment.failed",
                      .executed r⟩] })

/-- `PaymentService.executePayment` (`unnamed/part_010`). -/
def executePayment (env : Nat → OpEnv ExecutePaymentResponse) (maxRetries delayMs : Nat) :
    RunOutcome BkashError ExecutePaymentResponse :=
  retryOperation (executePaymentAttempt env) maxRetries delayMs

/-- One attempt of `TransactionService.queryPayment`: validate, get a
token, POST `/tokenized/checkout/payment/status`; no event is published
on either path; failures are wrapped into
`BkashError('Failed to query payment status', 'PAYMENT_QUERY_ERROR')`. -/
def queryPaymentAttempt (env : Nat → OpEnv QueryPaymentResponse) (attempt : Nat) :
    Except BkashError QueryPaymentResponse × Trace :=
  let e := env attempt
  if e.validationOk = false then
    (.error ⟨"Failed to query payment status", "PAYMENT_QUERY_ERROR", .validationErr⟩,
     { validations := 1 })
  else
    match e.token with
    | .error te =>
      (.error ⟨"Failed to query payment status", "PAYMENT_QUERY_ERROR",
         .thrownError te.message te.code⟩,
       { validations := 1, tokenCalls := 1 })
    | .ok _tok =>
      match e.http with
      | .error body =>
        (.error ⟨"Failed to query payment status", "PAYMENT_QUERY_ERROR", .upstream body⟩,
         { validations := 1, tokenCalls := 1, httpCalls := 1 })
      | .ok r =>
        (.ok r, { validations := 1, tokenCalls := 1, httpCalls := 1 })

/-- `TransactionService.queryPayment` (`unnamed/part_009`). -/
def queryPayment (env : Nat → OpEnv QueryPaymentResponse) (maxRetries delayMs : Nat) :
    RunOutcome BkashError QueryPaymentResponse :=
  retryOperation (queryPaymentAttempt env) maxRetries delayMs

/-- One attempt of `TransactionService.checkTransactionStatus`: GET
`/tokenized/checkout/transaction/status/:id`; no event on either path;
failures wrapped into `BkashError('Failed to check transaction status',
'TRANSACTION_STATUS_ERROR')`. -/
def checkTransactionStatusAttempt (env : Nat → OpEnv TransactionStatus) (attempt : Nat) :
    Except BkashError TransactionStatus × Trace :=
  let e := env attempt
  if e.validationOk = false then
    (.error ⟨"Failed to check transaction status", "TRANSACTION_STATUS_ERROR", .validationErr⟩,
     { validations := 1 })
  else
    match e.token with
    | .error te =>
      (.error ⟨"Failed to check transaction status", "TRANSACTION_STATUS_ERROR",
         .thrownError te.message te.code⟩,
       { validations := 1, tokenCalls := 1 })
    | .ok _tok =>
      match e.http with
      | .error body =>
        (.error ⟨"Failed to check transaction status", "TRANSACTION_STATUS_ERROR",
           .upstream body⟩,
         { validations := 1, tokenCalls := 1, httpCalls := 1 })
      | .ok r =>
        (.ok r, { validations := 1, tokenCalls := 1, httpCalls := 1 })

/-- `TransactionService.checkTransactionStatus` (`unnamed/part_009`). -/
def checkTransactionStatus (env : Nat → OpEnv TransactionStatus) (maxRetries delayMs : Nat) :
    RunOutcome BkashError TransactionStatus :=
  retryOperation (checkTransactionStatusAttempt env) maxRetries delayMs

/-- One attempt of `TransactionService.searchTransaction`: POST
`/tokenized/checkout/general/searchTran`; no event on either path;
failures wrapped into `BkashError('Failed to search transaction',
'SEARCH_ERROR')`. -/
def searchTransactionAttempt (env : Nat → OpEnv SearchTransactionResponse) (attempt : Nat) :
    Except BkashError SearchTransactionResponse × Trace :=
  let e := env attempt
  if e.validationOk = false then
    (.error ⟨"Failed to search transaction", "SEARCH_ERROR", .validationErr⟩,
     { validations := 1 })
  else
    match e.token with
    | .error te =>
      (.error ⟨"Failed to search transaction", "SEARCH_ERROR",
         .thrownError te.message te.code⟩,
       { validations := 1, tokenCalls := 1 })
    | .ok _tok =>
      match e.http with
      | .error body =>
        (.error ⟨"Failed to search transaction", "SEARCH_ERROR", .upstream body⟩,
         { validations := 1, tokenCalls := 1, httpCalls := 1 })
      | .ok r =>
        (.ok r, { validations := 1, tokenCalls := 1, httpCalls := 1 })

/-- `TransactionService.searchTransaction` (`unnamed/part_009`). -/
def searchTransaction (env : Nat → OpEnv SearchTransactionResponse) (maxRetries delayMs : Nat) :
    RunOutcome BkashError SearchTransactionResponse :=
  retryOperation (searchTransactionAttempt env) maxRetries delayMs

/-- `TransactionService.searchTransactionLegacy` (`unnamed/part_009`):
delegate to `searchTransaction` and convert the response to the legacy
shape (with `paymentID` and `merchantInvoiceNumber` left empty). -/
def searchTransactionLegacy (env : Nat → OpEnv SearchTransactionResponse)
    (maxRetries delayMs : Nat) : RunOutcome BkashError LegacySearchTransactionResponse :=
  let run := searchTransaction env maxRetries delayMs
  match run.result with
  | .ok r =>
    ⟨.ok { statusCode := r.statusCode
           statusMessage := r.statusMessage
           paymentID := ""
           trxID := r.trxID
           amount := r.amount
           currency := r.currency
           transactionStatus := r.transactionStatus
           paymentExecuteTime := r.completedTime
           merchantInvoiceNumber := "" },
     run.trace, run.slept⟩
  | .error e => ⟨.error e, run.trace, run.slept⟩

/-- One attempt of `RefundService.refundPayment` (v2 API): validate the
canonical refund body, get a token, POST
`/v2/tokenized-checkout/refund/payment/transaction` with the body
`{paymentId, trxId, refundAmount, sku, reason}` (collected in
`refundBodies`); publish `refund.success` with the response on success,
or `refund.failed` with the error details on failure, then reject with
`BkashError('Failed to process refund', 'REFUND_ERROR', details)`. -/
def refundPaymentAttempt (refundData : RefundData) (env : Nat → OpEnv RefundResponse)
    (attempt : Nat) : Except BkashError RefundResponse × Trace :=
  let e := env attempt
  if e.validationOk = false then
    (.error ⟨"Failed to process refund", "REFUND_ERROR", .validationErr⟩,
     { validations := 1, events := [⟨"refund.failed", .errInfo .validationErr⟩] })
  else
    match e.token with
    | .error te =>
      (.error ⟨"Failed to process refund", "REFUND_ERROR",
         .thrownError te.message te.code⟩,
       { validations := 1, tokenCalls := 1,
         events := [⟨"refund.failed", .errInfo (.thrownError te.message te.code)⟩] })
    | .ok _tok =>
      match e.http with
      | .error body =>
        (.error ⟨"Failed to process refund", "REFUND_ERROR", .upstream body⟩,
         { validations := 1, tokenCalls := 1, httpCalls := 1,
           refundBodies := [refundData],
           events := [⟨"refund.failed", .errInfo (.upstream body)⟩] })
      | .ok r =>
        (.ok r,
         { validations := 1, tokenCalls := 1, httpCalls := 1,
           refundBodies := [refundData],
           events := [⟨"refund.success", .refunded r⟩] })

/-- `RefundService.refundPayment` (`src/services/refund-service.ts`). -/
def refundPayment (refundData : RefundData) (env : Nat → OpEnv RefundResponse)
    (maxRetries delayMs : Nat) : RunOutcome BkashError RefundResponse :=
  retryOperation (refundPaymentAttempt refundData env) maxRetries delayMs

/-- One attempt of `RefundService.checkRefundStatus`: validate, get a
token, POST `/v2/tokenized-checkout/refund/payment/status`; publish
`refund.status.checked` with request and response on success, or
`refund.status.failed` with the error details on failure, then reject
with `BkashError('Failed to check refund status',
'REFUND_STATUS_ERROR', details)`. -/
def checkRefundStatusAttempt (refundStatusData : RefundStatusRequest)
    (env : Nat → OpEnv RefundStatusResponse) (attempt : Nat) :
    Except BkashError RefundStatusResponse × Trace :=
  let e := env attempt
  if e.validationOk = false then
    (.error ⟨"Failed to check refund status", "REFUND_STATUS_ERROR", .validationErr⟩,
     { validations := 1, events := [⟨"refund.status.failed", .errInfo .validationErr⟩] })
  else
    match e.token with
    | .error te =>
      (.error ⟨"Failed to check refund status", "REFUND_STATUS_ERROR",
         .thrownError te.message te.code⟩,
       { validations := 1, tokenCalls := 1,
         events := [⟨"refund.status.failed", .errInfo (.thrownError te.message te.code)⟩] })
    | .ok _tok =>
      match e.http with
      | .error body =>
        (.error ⟨"Failed to check refund status", "REFUND_STATUS_ERROR", .upstream body⟩,
         { validations := 1, tokenCalls := 1, httpCalls := 1,
           events := [⟨"refund.status.failed", .errInfo (.upstream body)⟩] })
      | .ok r =>
        (.ok r,
         { validations := 1, tokenCalls := 1, httpCalls := 1,
           events := [⟨"refund.status.checked", .refundStatus refundStatusData r⟩] })

/-- `RefundService.checkRefundStatus` (`src/services/refund-service.ts`). -/
def checkRefundStatus (refundStatusData : RefundStatusRequest)
    (env : Nat → OpEnv RefundStatusResponse) (maxRetries delayMs : Nat) :
    RunOutcome BkashError RefundStatusResponse :=
  retryOperation (checkRefundStatusAttempt refundStatusData env) maxRetries delayMs

/-- A JS number as it appears in the legacy refund amount: a
non-negative decimal `mantissa / 10 ^ scale`.  When the value is kept in
normalized form (`scale = 0` or `10 ∤ mantissa`, the shortest decimal),
`toStr` below agrees with `Number.prototype.toString` on the
schema-valid domain (positive numbers with a finite decimal
expansion). -/
structure JsDecimal where
  mantissa : Nat
  scale : Nat
deriving DecidableEq, Repr

/-- `amount.toString()` for a `JsDecimal`: the digits with a decimal
point inserted `scale` places from the right (zero-padded, e.g.
`⟨255, 1⟩ ↦ "25.5"`, `⟨5, 2⟩ ↦ "0.05"`, `⟨25, 0⟩ ↦ "25"`). -/
def JsDecimal.toStr (x : JsDecimal) : String :=
  if x.scale = 0 then toString x.mantissa
  else
    let s := Nat.toDigits 10 x.mantissa
    let s := if s.length ≤ x.scale then List.replicate (x.scale + 1 - s.length) '0' ++ s else s
    String.mk (s.take (s.length - x.scale)) ++ "." ++ String.mk (s.drop (s.length - x.scale))

/-- `LegacyRefundData` of `src/types/types.ts`: the deprecated refund
call shape `{paymentId, transactionId, amount, reason?}`. -/
structure LegacyRefundData where
  paymentId : String
  transactionId : String
  amount : JsDecimal
  reason : Option String
deriving DecidableEq, Repr

/-- `LegacyRefundResponse`: the legacy-shape refund response synthesized
by `refundPaymentLegacy`. -/
structure LegacyRefundResponse where
  statusCode : String
  statusMessage : String
  paymentID : String
  trxID : String
  amount : String
  currency : String
  refundTrxID : String
  completedTime : String
deriving DecidableEq, Repr

/-- `refundData.reason || 'Customer request'` (JS `||`: an absent or
empty reason falls back to the default). -/
def legacyReasonOrDefault (reason : Option String) : String :=
  match reason with
  | none => "Customer request"
  | some s => if s = "" then "Customer request" else s

/-- The legacy-to-canonical conversion performed by
`refundPaymentLegacy`: `{paymentId, trxId: transactionId, refundAmount:
amount.toString(), sku: 'LEGACY', reason: reason || 'Customer
request'}`. -/
def legacyToCanonical (inp : LegacyRefundData) : RefundData :=
  { paymentId := inp.paymentId
    trxId := inp.transactionId
    refundAmount := inp.amount.toStr
    sku := "LEGACY"
    reason := legacyReasonOrDefault inp.reason }

/-- Errors escaping `refundPaymentLegacy`: either the raw zod validation
error of `LegacyRefundDataSchema.parse` (which runs outside the retry
wrapper and is not wrapped into `BkashError`), or whatever the delegated
`refundPayment` call rejected with. -/
inductive LegacyRefundError where
  | rawValidation
  | fromRefund (e : Option BkashError)
deriving DecidableEq, Repr

/-- Outcome of one `refundPaymentLegacy` call. -/
structure LegacyRefundRun where
  result : Except LegacyRefundError LegacyRefundResponse
  trace : Trace
  slept : Nat
deriving Repr, DecidableEq

/-- `RefundService.refundPaymentLegacy`
(`src/services/refund-service.ts`): validate the legacy shape (outside
the retry executor, raising the raw validation error), convert to the
canonical shape, delegate to `refundPayment` once, and synthesize the
legacy response from the canonical one —
`statusCode/statusMessage` are `('0000', 'Successful')` exactly when
`refundTransactionStatus` is `'Completed'` and `('0001', 'Failed')`
otherwise.  `legacyValidationOk` is the verdict of
`LegacyRefundDataSchema.parse` on the input. -/
def refundPaymentLegacy (legacyValidationOk : Bool) (inp : LegacyRefundData)
    (env : Nat → OpEnv RefundResponse) (maxRetries delayMs : Nat) : LegacyRefundRun :=
  if legacyValidationOk = false then
    ⟨.error .rawValidation, { validations := 1 }, 0⟩
  else
    let newRefundData := legacyToCanonical inp
    let run := refundPayment newRefundData env maxRetries delayMs
    match run.result with
    | .error e =>
      ⟨.error (.fromRefund e),
       Trace.append { validations := 1 } run.trace, run.slept⟩
    | .ok result =>
      ⟨.ok { statusCode := if result.refundTransactionStatus = "Completed" then "0000" else "0001"
             statusMessage := if result.refundTransactionStatus = "Completed" then "Successful" else "Failed"
             paymentID := inp.paymentId
             trxID := result.originalTrxId
             amount := result.refundAmount
             currency := result.currency
             refundTrxID := result.refundTrxId
             completedTime := result.completedTime },
       Trace.append { validations := 1 } run.trace, run.slept⟩

/-! SHA-256 and HMAC-SHA-256 (FIPS 180-4 / RFC 2104), as computed by
`crypto.createHmac('sha256', secret).update(payload).digest('hex')` in
`WebhookService`.  Bytes and 32-bit words are `Nat`s reduced modulo
`2 ^ 32` where overflow matters. -/

/-- Truncate to a 32-bit word. -/
def w32 (n : Nat) : Nat := n % 4294967296

/-- Bitwise complement within 32 bits (operand already `< 2 ^ 32`). -/
def not32 (x : Nat) : Nat := 4294967295 ^^^ x

/-- Rotate a 32-bit word right by `n` (for `0 < n < 32`). -/
def rotr32 (n x : Nat) : Nat := w32 ((x >>> n) ||| (x <<< (32 - n)))

/-- SHA-256 `Ch`. -/
def shaCh (x y z : Nat) : Nat := (x &&& y) ^^^ (not32 x &&& z)

/-- SHA-256 `Maj`. -/
def shaMaj (x y z : Nat) : Nat := (x &&& y) ^^^ (x &&& z) ^^^ (y &&& z)

/-- SHA-256 `Σ0`. -/
def shaBigSigma0 (x : Nat) : Nat := rotr32 2 x ^^^ rotr32 13 x ^^^ rotr32 22 x

/-- SHA-256 `Σ1`. -/
def shaBigSigma1 (x : Nat) : Nat := rotr32 6 x ^^^ rotr32 11 x ^^^ rotr32 25 x

/-- SHA-256 `σ0`. -/
def shaSmallSigma0 (x : Nat) : Nat := rotr32 7 x ^^^ rotr32 18 x ^^^ (x >>> 3)

/-- SHA-256 `σ1`. -/
def shaSmallSigma1 (x : Nat) : Nat := rotr32 17 x ^^^ rotr32 19 x ^^^ (x >>> 10)

/-- The 64 SHA-256 round constants. -/
def shaK : List Nat :=
  [1116352408, 1899447441, 3049323471, 3921009573, 961987163,
   1508970993, 2453635748, 2870763221, 3624381080, 310598401,
   607225278, 1426881987, 1925078388, 2162078206, 2614888103,
   3248222580, 3835390401, 4022224774, 264347078, 604807628,
   770255983, 1249150122, 1555081692, 1996064986, 2554220882,
   2821834349, 2952996808, 3210313671, 3336571891, 3584528711,
   113926993, 338241895, 666307205, 773529912, 1294757372,
   1396182291, 1695183700, 1986661051, 2177026350, 2456956037,
   2730485921, 2820302411, 3259730800, 3345764771, 3516065817,
   3600352804, 4094571909, 275423344, 430227734, 506948616,
   659060556, 883997877, 958139571, 1322822218, 1537002063,
   1747873779, 1955562222, 2024104815, 2227730452, 2361852424,
   2428436474, 2756734187, 3204031479, 3329325298]

/-- The SHA-256 initial hash value. -/
def shaH0 : List Nat :=
  [1779033703, 3144134277, 1013904242,
   2773480762, 1359893119, 2600822924,
   528734635, 1541459225]

/-- Element at index `i`, defaulting to 0. -/
def nthW (l : List Nat) (i : Nat) : Nat := l.getD i 0

/-- `k` bytes of `n`, big-endian. -/
def beBytes : Nat → Nat → List Nat
  | 0, _ => []
  | k + 1, n => beBytes k (n / 256) ++ [n % 256]

/-- Merkle–Damgård padding: append `0x80`, zero bytes to 56 mod 64, and
the 8-byte big-endian bit length. -/
def sha256Pad (msg : List Nat) : List Nat :=
  let padZeros := (64 - (msg.length + 9) % 64) % 64
  msg ++ [0x80] ++ List.replicate padZeros 0 ++ beBytes 8 (8 * msg.length)

/-- Big-endian 32-bit words from a byte list. -/
def bytesToWords : List Nat → List Nat
  | b0 :: b1 :: b2 :: b3 :: rest => (((b0 * 256 + b1) * 256 + b2) * 256 + b3) :: bytesToWords rest
  | _ => []

/-- Words back to big-endian bytes. -/
def wordsToBytes (ws : List Nat) : List Nat := ws.flatMap (beBytes 4)

/-- Extend the 16 block words to the 64-word message schedule. -/
def shaSchedule (block : List Nat) : List Nat :=
  (List.range 48).foldl
    (fun w i =>
      w ++ [w32 (shaSmallSigma1 (nthW w (i + 14)) + nthW w (i + 9) +
                 shaSmallSigma0 (nthW w (i + 1)) + nthW w i)])
    (bytesToWords block)

/-- One SHA-256 round on the working variables `[a,b,c,d,e,f,g,h]`. -/
def shaRound (w : List Nat) (st : List Nat) (i : Nat) : List Nat :=
  match st with
  | [a, b, c, d, e, f, g, h] =>
    let t1 := w32 (h + shaBigSigma1 e + shaCh e f g + nthW shaK i + nthW w i)
    let t2 := w32 (shaBigSigma0 a + shaMaj a b c)
    [w32 (t1 + t2), a, b, c, w32 (d + t1), e, f, g]
  | st => st

/-- SHA-256 compression of one 64-byte block into the hash state. -/
def shaCompress (hs : List Nat) (block : List Nat) : List Nat :=
  let w := shaSchedule block
  let st := (List.range 64).foldl (shaRound w) hs
  List.zipWith (fun x y => w32 (x + y)) hs st

/-- Split a byte list into 64-byte chunks (fuel-driven so that it
reduces in the kernel). -/
def chunks64 : Nat → List Nat → List (List Nat)
  | 0, _ => []
  | _ + 1, [] => []
  | fuel + 1, b :: bs => (b :: bs).take 64 :: chunks64 fuel ((b :: bs).drop 64)

/-- SHA-256 of a byte list. -/
def sha256 (msg : List Nat) : List Nat :=
  let padded := sha256Pad msg
  wordsToBytes ((chunks64 padded.length padded).foldl shaCompress shaH0)

/-- HMAC-SHA-256 (RFC 2104) of a message under a key, as byte lists. -/
def hmacSha256 (key msg : List Nat) : List Nat :=
  let key0 := if 64 < key.length then sha256 key else key
  let keyBlock := key0 ++ List.replicate (64 - key0.length) 0
  let ipad := keyBlock.map (fun b => b ^^^ 0x36)
  let opad := keyBlock.map (fun b => b ^^^ 0x5c)
  sha256 (opad ++ sha256 (ipad ++ msg))

/-- UTF-8 encoding of a string (how node feeds strings to `crypto`). -/
def utf8Bytes (s : String) : List Nat :=
  s.data.flatMap (fun c =>
    let n := c.toNat
    if n < 0x80 then [n]
    else if n < 0x800 then [0xC0 ||| (n >>> 6), 0x80 ||| (n &&& 0x3F)]
    else if n < 0x10000 then
      [0xE0 ||| (n >>> 12), 0x80 ||| ((n >>> 6) &&& 0x3F), 0x80 ||| (n &&& 0x3F)]
    else
      [0xF0 ||| (n >>> 18), 0x80 ||| ((n >>> 12) &&& 0x3F),
       0x80 ||| ((n >>> 6) &&& 0x3F), 0x80 ||| (n &&& 0x3F)])

/-- Lowercase hex digit for `n < 16`. -/
def hexDigitChar (n : Nat) : Char := if n < 10 then Char.ofNat (48 + n) else Char.ofNat (87 + n)

/-- Lowercase hex encoding of a byte list (`digest('hex')`). -/
def bytesToHex (bs : List Nat) : String :=
  String.mk (bs.flatMap (fun b => [hexDigitChar (b / 16), hexDigitChar (b % 16)]))

/-- `crypto.createHmac('sha256', secret).update(payload).digest('hex')`. -/
def hmacSha256Hex (secret payload : String) : String :=
  bytesToHex (hmacSha256 (utf8Bytes secret) (utf8Bytes payload))

/-- Value of a hex digit, case-insensitively (node's hex decoder accepts
both cases). -/
def hexVal (c : Char) : Option Nat :=
  if 48 ≤ c.toNat ∧ c.toNat ≤ 57 then some (c.toNat - 48)
  else if 97 ≤ c.toNat ∧ c.toNat ≤ 102 then some (c.toNat - 87)
  else if 65 ≤ c.toNat ∧ c.toNat ≤ 70 then some (c.toNat - 55)
  else none

/-- `Buffer.from(s, 'hex')`: decode hex pairs, stopping at the first
invalid character or dangling half-pair. -/
def hexDecodeList : List Char → List Nat
  | c1 :: c2 :: rest =>
    match hexVal c1, hexVal c2 with
    | some hi, some lo => (16 * hi + lo) :: hexDecodeList rest
    | _, _ => []
  | _ => []

/-- `Buffer.from(s, 'hex')` on a string. -/
def bufferFromHex (s : String) : List Nat := hexDecodeList s.data

/-- `WebhookService.verifyWebhookSignature`
(`src/services/webhook-service.ts`): throw
`BkashError('WEBHOOK_SECRET_MISSING')` when no (truthy) secret is
configured; otherwise hex-decode the freshly computed HMAC and the
supplied signature, return `false` on a decoded-length mismatch and the
`timingSafeEqual` verdict otherwise. -/
def verifyWebhookSignature (secret : Option String) (payload signature : String) :
    Except BkashError Bool :=
  match secret with
  | none => .error ⟨"Webhook secret not configured", "WEBHOOK_SECRET_MISSING", .noDetails⟩
  | some sec =>
    if sec = "" then
      .error ⟨"Webhook secret not configured", "WEBHOOK_SECRET_MISSING", .noDetails⟩
    else
      let expectedBuffer := bufferFromHex (hmacSha256Hex sec payload)
      let actualBuffer := bufferFromHex signature
      if expectedBuffer.length ≠ actualBuffer.length then .ok false
      else .ok (expectedBuffer == actualBuffer)

/-- Outcome of `handleWebhook`: resolution or the raised `BkashError`,
plus the payloads republished on the `bkash:event` channel. -/
structure WebhookRun where
  result : Except BkashError Unit
  emitted : List String
deriving DecidableEq, Repr

/-- JS truthiness of an optional string (`undefined` and `""` are
falsy). -/
def strTruthy (s : Option String) : Bool :=
  match s with
  | some v => v != ""
  | none => false

/-- `WebhookService.handleWebhook`
(`src/services/webhook-service.ts`): when a (truthy) webhook secret is
configured, a missing signature raises
`BkashError('WEBHOOK_SIGNATURE_MISSING')` and a failing verification
raises `BkashError('WEBHOOK_SIGNATURE_INVALID')`, publishing nothing;
otherwise — including whenever no secret is configured, where no
verification is attempted — the payload is republished as an event.
The payload is taken in its serialized string form (the code stringifies
non-string payloads before verification). -/
def handleWebhook (secret : Option String) (payload : String) (signature : Option String) :
    WebhookRun :=
  if strTruthy secret then
    if strTruthy signature = false then
      ⟨.error ⟨"Webhook signature is required when webhook secret is configured",
         "WEBHOOK_SIGNATURE_MISSING", .noDetails⟩, []⟩
    else
      match verifyWebhookSignature secret payload (signature.getD "") with
      | .error e => ⟨.error e, []⟩
      | .ok false =>
        ⟨.error ⟨"Invalid webhook signature", "WEBHOOK_SIGNATURE_INVALID", .noDetails⟩, []⟩
      | .ok true => ⟨.ok (), [payload]⟩
  else ⟨.ok (), [payload]⟩

/-! Generic lemmas about the retry executor. -/

theorem Trace.append_empty (t : Trace) : t.append Trace.empty = t := by
  simp [Trace.append, Trace.empty]

/-- If the operation fails on every attempt from `a` up to and including
`maxRetries`, the loop rejects with the error captured on the final
attempt, accumulates the traces of all attempts in order, and sleeps
`delayMs * i` after every attempt `i < maxRetries`. -/
theorem retryFrom_all_fail {ε α : Type} (op : Nat → Except ε α × Trace) (m d : Nat)
    (err : Nat → ε) (htr : Nat → Trace)
    (hop : ∀ i, 1 ≤ i → i ≤ m → op i = (.error (err i), htr i)) :
    ∀ r a le, a + r = m + 1 → 1 ≤ a → a ≤ m →
      retryFrom op m d a r le =
        ⟨.error (some (err m)),
         ((List.range' a r).map htr).foldr Trace.append Trace.empty,
         ∑ i ∈ Finset.Ico a m, d * i⟩ := by
  intro r
  induction r with
  | zero => intro a le h1 h2 h3; omega
  | succ r ih =>
    intro a le h1 h2 h3
    have hopa := hop a h2 h3
    by_cases ham : a = m
    · subst ham
      have hr : r = 0 := by omega
      subst hr
      simp [retryFrom, hopa, Trace.append_empty, List.range']
    · have ham' : a < m := lt_of_le_of_ne h3 ham
      have hrec := ih (a + 1) (some (err a)) (by omega) (by omega) (by omega)
      have hsum : ∑ i ∈ Finset.Ico a m, d * i
          = d * a + ∑ i ∈ Finset.Ico (a + 1) m, d * i :=
        Finset.sum_eq_sum_Ico_succ_bot ham' _
      simp [retryFrom, hopa, hrec, List.range', if_pos ham', hsum]

/-- If the operation fails on attempts `a..N-1` and succeeds on attempt
`N ≤ maxRetries`, the loop resolves with the successful value and the
total backoff slept from attempt `a` on is `∑ i ∈ [a, N), delayMs * i`. -/
theorem retryFrom_eventual_ok {ε α : Type} (op : Nat → Except ε α × Trace) (m d N : Nat)
    (v : α) (trN : Trace) (hN : op N = (.ok v, trN)) (hNm : N ≤ m)
    (hfail : ∀ i, 1 ≤ i → i < N → ∃ e tr, op i = (.error e, tr)) :
    ∀ r a le, a + r = m + 1 → 1 ≤ a → a ≤ N →
      ((retryFrom op m d a r le).result = .ok v ∧
       (retryFrom op m d a r le).slept = ∑ i ∈ Finset.Ico a N, d * i) := by
  intro r
  induction r with
  | zero => intro a le h1 h2 h3; omega
  | succ r ih =>
    intro a le h1 h2 h3
    by_cases haN : a = N
    · subst haN
      simp [retryFrom, hN]
    · have haN' : a < N := lt_of_le_of_ne h3 haN
      obtain ⟨e, tr, hopa⟩ := hfail a h2 haN'
      have hrec := ih (a + 1) (some e) (by omega) (by omega) (by omega)
      have hsum : ∑ i ∈ Finset.Ico a N, d * i
          = d * a + ∑ i ∈ Finset.Ico (a + 1) N, d * i :=
        Finset.sum_eq_sum_Ico_succ_bot haN' _
      have ham : a < m := by omega
      simp [retryFrom, hopa, hrec.1, hrec.2, if_pos ham, hsum]

/-- If no attempt ever publishes an event, the whole retried run
publishes no event, whatever the outcome. -/
theorem retryFrom_no_events {ε α : Type} (op : Nat → Except ε α × Trace) (m d : Nat)
    (hop : ∀ i, ((op i).2).events = []) :
    ∀ r a le, (retryFrom op m d a r le).trace.events = [] := by
  intro r
  induction r with
  | zero => intro a le; simp [retryFrom, Trace.empty]
  | succ r ih =>
    intro a le
    rcases hv : op a with ⟨res, tr⟩
    have htr : tr.events = [] := by
      have := hop a; rw [hv] at this; exact this
    cases res with
    | ok v => simp [retryFrom, hv, htr]
    | error e => simp [retryFrom, hv, Trace.append, htr, ih]

/-- A first-attempt success resolves immediately: the run consists of
exactly attempt 1's outcome, with no backoff sleep. -/
theorem retryOperation_first_ok {ε α : Type} (op : Nat → Except ε α × Trace) (m d : Nat)
    (v : α) (tr : Trace) (hm : 1 ≤ m) (h : op 1 = (.ok v, tr)) :
    retryOperation op m d = ⟨.ok v, tr, 0⟩ := by
  obtain ⟨k, rfl⟩ : ∃ k, m = k + 1 := ⟨m - 1, by omega⟩
  simp [retryOperation, retryFrom, h]

theorem foldr_append_events (l : List Nat) (htr : Nat → Trace) :
    ((l.map htr).foldr Trace.append Trace.empty).events
      = l.flatMap (fun i => (htr i).events) := by
  induction l with
  | nil => simp [Trace.empty]
  | cons a l ih => simp [Trace.append, ih]

theorem foldr_append_tokenCalls (l : List Nat) (htr : Nat → Trace) :
    ((l.map htr).foldr Trace.append Trace.empty).tokenCalls
      = (l.map (fun i => (htr i).tokenCalls)).sum := by
  induction l with
  | nil => simp [Trace.empty]
  | cons a l ih => simp [Trace.append, ih]

theorem foldr_append_httpCalls (l : List Nat) (htr : Nat → Trace) :
    ((l.map htr).foldr Trace.append Trace.empty).httpCalls
      = (l.map (fun i => (htr i).httpCalls)).sum := by
  induction l with
  | nil => simp [Trace.empty]
  | cons a l ih => simp [Trace.append, ih]

theorem foldr_append_validations (l : List Nat) (htr : Nat → Trace) :
    ((l.map htr).foldr Trace.append Trace.empty).validations
      = (l.map (fun i => (htr i).validations)).sum := by
  induction l with
  | nil => simp [Trace.empty]
  | cons a l ih => simp [Trace.append, ih]

theorem list_sum_map_const_zero (l : List Nat) : (l.map (fun _ => (0 : Nat))).sum = 0 := by
  induction l with
  | nil => rfl
  | cons a l ih => simp [ih]

theorem list_flatMap_singleton {α β : Type} (l : List α) (f : α → β) :
    (l.flatMap (fun i => [f i])) = l.map f := by
  induction l with
  | nil => rfl
  | cons a l ih => simp [ih]

theorem list_sum_map_const_one (l : List Nat) : (l.map (fun _ => (1 : Nat))).sum = l.length := by
  induction l with
  | nil => rfl
  | cons a l ih => simp [ih]; omega

/-! Helper lemmas about the token manager and the service attempts. -/

/-- A valid cache answers `getToken` without any acquisition. -/
theorem getToken_cached (st : TokenState) (now : Nat)
    (upstream : Nat → Except (Option String) GrantTokenResponse) (m d : Nat)
    (t : String) (e : Nat) (htok : st.token = some t) (ht : t ≠ "")
    (hexp : st.tokenExpiry = some e) (hnow : now < e) :
    getToken st now upstream m d = ⟨.ok t, st, Trace.empty, 0⟩ := by
  have hvalid : tokenCacheValid st now = true := by
    simp [tokenCacheValid, htok, hexp, ht, hnow]
  simp [getToken, hvalid, htok]

/-- An invalid cache with a first-attempt acquisition success stores the
new token with expiry `now + effectiveExpiresIn · 1000` and performs
exactly one grant call. -/
theorem getToken_fresh_ok (st : TokenState) (now : Nat)
    (upstream : Nat → Except (Option String) GrantTokenResponse) (m d : Nat)
    (resp : GrantTokenResponse) (t : String)
    (hmiss : tokenCacheValid st now = false) (hm : 1 ≤ m)
    (hup : upstream 1 = .ok resp) (hid : resp.id_token = some t) (ht : t ≠ "") :
    getToken st now upstream m d =
      ⟨.ok t, ⟨some t, some (now + effectiveExpiresIn resp * 1000)⟩,
       { grantHttpCalls := 1 }, 0⟩ := by
  have hattempt : grantTokenAttempt now upstream 1 =
      (.ok (t, ⟨some t, some (now + effectiveExpiresIn resp * 1000)⟩),
       { grantHttpCalls := 1 }) := by
    simp [grantTokenAttempt, hup, hid, ht]
  have hrun := retryOperation_first_ok (grantTokenAttempt now upstream) m d _ _ hm hattempt
  simp [getToken, hmiss, hrun]

/-- An expiry that has passed invalidates the cache. -/
theorem tokenCacheValid_expired (st : TokenState) (now e : Nat)
    (hexp : st.tokenExpiry = some e) (he : e ≤ now) :
    tokenCacheValid st now = false := by
  rcases st with ⟨tok, texp⟩
  cases tok <;> simp_all [tokenCacheValid]

theorem queryPaymentAttempt_no_events (env : Nat → OpEnv QueryPaymentResponse) (i : Nat) :
    ((queryPaymentAttempt env i).2).events = [] := by
  rcases henv : env i with ⟨vo, tok, http⟩
  cases vo <;> cases tok <;> cases http <;> simp [queryPaymentAttempt, henv]

theorem checkTransactionStatusAttempt_no_events (env : Nat → OpEnv TransactionStatus) (i : Nat) :
    ((checkTransactionStatusAttempt env i).2).events = [] := by
  rcases henv : env i with ⟨vo, tok, http⟩
  cases vo <;> cases tok <;> cases http <;> simp [checkTransactionStatusAttempt, henv]

theorem searchTransactionAttempt_no_events (env : Nat → OpEnv SearchTransactionResponse) (i : Nat) :
    ((searchTransactionAttempt env i).2).events = [] := by
  rcases henv : env i with ⟨vo, tok, http⟩
  cases vo <;> cases tok <;> cases http <;> simp [searchTransactionAttempt, henv]

/-! The claims. -/

/-- C1: for every operation that throws on attempts `1..N-1` and
returns a value on attempt `N ≤ maxRetries`, `retryOperation(op)`
resolves with attempt `N`'s value, and the total delay slept before
resolving is `delayMs*1 + delayMs*2 + ... + delayMs*(N-1)` (linear
backoff, no sleep after the final attempt). -/
theorem c1_retry_linear_backoff {ε α : Type} (op : Nat → Except ε α × Trace)
    (maxRetries delayMs N : Nat) (v : α) (trN : Trace)
    (hN : 1 ≤ N) (hNm : N ≤ maxRetries) (hok : op N = (.ok v, trN))
    (hfail : ∀ i, 1 ≤ i → i < N → ∃ e tr, op i = (.error e, tr)) :
    (retryOperation op maxRetries delayMs).result = .ok v ∧
    (retryOperation op maxRetries delayMs).slept
      = ∑ i ∈ Finset.range N, delayMs * i := by
  have h := retryFrom_eventual_ok op maxRetries delayMs N v trN hok hNm hfail
    maxRetries 1 none (by omega) (by omega) hN
  refine ⟨h.1, ?_⟩
  have hsum : ∑ i ∈ Finset.range N, delayMs * i = ∑ i ∈ Finset.Ico 1 N, delayMs * i := by
    rw [Finset.range_eq_Ico, Finset.sum_eq_sum_Ico_succ_bot (by omega : 0 < N)]
    simp
  rw [hsum]
  exact h.2

/-- C1 witness: an operation failing on attempts 1 and 2 and succeeding
on attempt 3 of 3 resolves with its value after 100·1 + 100·2 = 300 ms
of backoff. -/
theorem c1_retry_linear_backoff_witness :
    (retryOperation
        (fun i => if i < 3 then (.error "boom", Trace.empty) else (.ok 42, Trace.empty))
        3 100).result = .ok 42 ∧
    (retryOperation
        (fun i => if i < 3 then (.error "boom", Trace.empty) else (.ok 42, Trace.empty))
        3 100).slept = 300 := by
  have h := c1_retry_linear_backoff
    (fun i => if i < 3 then ((.error "boom" : Except String Nat), Trace.empty)
              else (.ok 42, Trace.empty))
    3 100 3 42 Trace.empty (by omega) (by omega) (by simp)
    (fun i h1 h2 => ⟨"boom", Trace.empty, by simp [h2]⟩)
  exact ⟨h.1, h.2.trans (by decide)⟩

/-- C2: while a cached token is unexpired, `getToken` returns it with no
downstream acquisition; two calls within the cached lifetime therefore
perform exactly one acquisition, and a call after the expiry has passed
performs a fresh acquisition, stores the new token and expiry, and
returns the new token. -/
theorem c2_token_caching :
    (∀ (st : TokenState) (now : Nat) upstream (m d : Nat) (t : String) (e : Nat),
       st.token = some t → t ≠ "" → st.tokenExpiry = some e → now < e →
       getToken st now upstream m d = ⟨.ok t, st, Trace.empty, 0⟩) ∧
    (∀ (now₀ now₁ : Nat) u₁ u₂ (m d : Nat) (resp : GrantTokenResponse) (t : String),
       1 ≤ m → u₁ 1 = .ok resp → resp.id_token = some t → t ≠ "" →
       now₁ < now₀ + effectiveExpiresIn resp * 1000 →
       (getToken (⟨none, none⟩ : TokenState) now₀ u₁ m d).result = .ok t ∧
       (getToken (⟨none, none⟩ : TokenState) now₀ u₁ m d).trace.grantHttpCalls = 1 ∧
       (getToken (getToken (⟨none, none⟩ : TokenState) now₀ u₁ m d).state now₁ u₂ m d).result
         = .ok t ∧
       (getToken (getToken (⟨none, none⟩ : TokenState) now₀ u₁ m d).state now₁ u₂ m d).trace.grantHttpCalls = 0 ∧
       (getToken (getToken (⟨none, none⟩ : TokenState) now₀ u₁ m d).state now₁ u₂ m d).state
         = (getToken (⟨none, none⟩ : TokenState) now₀ u₁ m d).state) ∧
    (∀ (st : TokenState) (now e : Nat) upstream (m d : Nat) (resp : GrantTokenResponse)
       (t : String),
       st.tokenExpiry = some e → e ≤ now → 1 ≤ m →
       upstream 1 = .ok resp → resp.id_token = some t → t ≠ "" →
       getToken st now upstream m d =
         ⟨.ok t, ⟨some t, some (now + effectiveExpiresIn resp * 1000)⟩,
          { grantHttpCalls := 1 }, 0⟩) := by
  refine ⟨?_, ?_, ?_⟩
  · intro st now upstream m d t e htok ht hexp hnow
    exact getToken_cached st now upstream m d t e htok ht hexp hnow
  · intro now₀ now₁ u₁ u₂ m d resp t hm hup hid ht hfresh
    have h1 : getToken (⟨none, none⟩ : TokenState) now₀ u₁ m d =
        ⟨.ok t, ⟨some t, some (now₀ + effectiveExpiresIn resp * 1000)⟩,
         { grantHttpCalls := 1 }, 0⟩ :=
      getToken_fresh_ok _ now₀ u₁ m d resp t (by simp [tokenCacheValid]) hm hup hid ht
    have h2 : getToken (getToken (⟨none, none⟩ : TokenState) now₀ u₁ m d).state now₁ u₂ m d =
        ⟨.ok t, (getToken (⟨none, none⟩ : TokenState) now₀ u₁ m d).state, Trace.empty, 0⟩ := by
      rw [h1]
      exact getToken_cached _ now₁ u₂ m d t _ rfl ht rfl hfresh
    rw [h1] at h2 ⊢
    rw [h2]
    simp [Trace.empty]
  · intro st now e upstream m d resp t hexp he hm hup hid ht
    exact getToken_fresh_ok st now upstream m d resp t
      (tokenCacheValid_expired st now e hexp he) hm hup hid ht

/-- C2 witness: concrete cache hit; a fresh acquisition at time 0 with a
3600-second lifetime; a second call at time 1000 hitting the cache; and
a call at time 3 600 001 (after expiry 3 600 000) re-acquiring. -/
theorem c2_token_caching_witness :
    (getToken (⟨some "tokA", some 100⟩ : TokenState) 50
        (fun _ => .error none) 3 100 =
      ⟨.ok "tokA", ⟨some "tokA", some 100⟩, Trace.empty, 0⟩) ∧
    ((getToken (⟨none, none⟩ : TokenState) 0
        (fun _ => .ok ⟨some "T1", some 3600⟩) 3 100).result = .ok "T1" ∧
     (getToken (⟨none, none⟩ : TokenState) 0
        (fun _ => .ok ⟨some "T1", some 3600⟩) 3 100).trace.grantHttpCalls = 1 ∧
     (getToken (getToken (⟨none, none⟩ : TokenState) 0
        (fun _ => .ok ⟨some "T1", some 3600⟩) 3 100).state 1000
        (fun _ => .ok ⟨some "T2", some 3600⟩) 3 100).result = .ok "T1" ∧
     (getToken (getToken (⟨none, none⟩ : TokenState) 0
        (fun _ => .ok ⟨some "T1", some 3600⟩) 3 100).state 1000
        (fun _ => .ok ⟨some "T2", some 3600⟩) 3 100).trace.grantHttpCalls = 0) ∧
    (getToken (⟨some "T1", some 3600000⟩ : TokenState) 3600001
        (fun _ => .ok ⟨some "T2", some 7200⟩) 3 100 =
      ⟨.ok "T2", ⟨some "T2", some (3600001 + 7200 * 1000)⟩, { grantHttpCalls := 1 }, 0⟩) := by
  refine ⟨?_, ⟨?_, ?_, ?_, ?_⟩, ?_⟩
  · exact c2_token_caching.1 _ 50 _ 3 100 "tokA" 100 rfl (by decide) rfl (by decide)
  · exact (c2_token_caching.2.1 0 1000 (fun _ => .ok ⟨some "T1", some 3600⟩)
      (fun _ => .ok ⟨some "T2", some 3600⟩) 3 100 ⟨some "T1", some 3600⟩ "T1"
      (by decide) rfl rfl (by decide) (by decide)).1
  · exact (c2_token_caching.2.1 0 1000 (fun _ => .ok ⟨some "T1", some 3600⟩)
      (fun _ => .ok ⟨some "T2", some 3600⟩) 3 100 ⟨some "T1", some 3600⟩ "T1"
      (by decide) rfl rfl (by decide) (by decide)).2.1
  · exact (c2_token_caching.2.1 0 1000 (fun _ => .ok ⟨some "T1", some 3600⟩)
      (fun _ => .ok ⟨some "T2", some 3600⟩) 3 100 ⟨some "T1", some 3600⟩ "T1"
      (by decide) rfl rfl (by decide) (by decide)).2.2.1
  · exact (c2_token_caching.2.1 0 1000 (fun _ => .ok ⟨some "T1", some 3600⟩)
      (fun _ => .ok ⟨some "T2", some 3600⟩) 3 100 ⟨some "T1", some 3600⟩ "T1"
      (by decide) rfl rfl (by decide) (by decide)).2.2.2.1
  · exact c2_token_caching.2.2 _ 3600001 3600000 _ 3 100 ⟨some "T2", some 7200⟩ "T2"
      rfl (by decide) (by decide) rfl rfl (by decide)

/-- C9 (amended): on a successful acquisition the cached expiry is the
acquisition time plus `effectiveExpiresIn · 1000` ms, where
`effectiveExpiresIn` is the upstream-declared `expires_in` whenever that
is present and nonzero, and the 3600-second default when `expires_in`
is omitted — or declared as `0`, which JS `||` cannot distinguish from
omission. -/
theorem c9_token_expiry (st : TokenState) (now : Nat)
    (upstream : Nat → Except (Option String) GrantTokenResponse) (m d : Nat)
    (resp : GrantTokenResponse) (t : String)
    (hmiss : tokenCacheValid st now = false) (hm : 1 ≤ m)
    (hup : upstream 1 = .ok resp) (hid : resp.id_token = some t) (ht : t ≠ "") :
    (getToken st now upstream m d).state.tokenExpiry
      = some (now + effectiveExpiresIn resp * 1000) ∧
    (∀ n, resp.expires_in = some n → n ≠ 0 → effectiveExpiresIn resp = n) ∧
    (resp.expires_in = none → effectiveExpiresIn resp = 3600) ∧
    (resp.expires_in = some 0 → effectiveExpiresIn resp = 3600) := by
  refine ⟨?_, ?_, ?_, ?_⟩
  · rw [getToken_fresh_ok st now upstream m d resp t hmiss hm hup hid ht]
  · intro n hn hn0
    simp [effectiveExpiresIn, hn, hn0]
  · intro hn
    simp [effectiveExpiresIn, hn]
  · intro hn
    simp [effectiveExpiresIn, hn]

/-- C9 witness: acquisition at time 5 with declared lifetime 7200 s
caches expiry `5 + 7200·1000`; with the lifetime omitted it caches
`5 + 3600·1000`. -/
theorem c9_token_expiry_witness :
    (getToken (⟨none, none⟩ : TokenState) 5
        (fun _ => .ok ⟨some "T", some 7200⟩) 3 100).state.tokenExpiry
      = some (5 + 7200 * 1000) ∧
    (getToken (⟨none, none⟩ : TokenState) 5
        (fun _ => .ok ⟨some "T", none⟩) 3 100).state.tokenExpiry
      = some (5 + 3600 * 1000) := by
  constructor
  · have h := (c9_token_expiry (⟨none, none⟩ : TokenState) 5
      (fun _ => .ok ⟨some "T", some 7200⟩) 3 100 ⟨some "T", some 7200⟩ "T"
      (by decide) (by decide) rfl rfl (by decide)).1
    rw [h]
    decide
  · have h := (c9_token_expiry (⟨none, none⟩ : TokenState) 5
      (fun _ => .ok ⟨some "T", none⟩) 3 100 ⟨some "T", none⟩ "T"
      (by decide) (by decide) rfl rfl (by decide)).1
    rw [h]
    decide

/-- C9 counterexample: an upstream response declaring `expires_in: 0`
is cached with the 3600-second default expiry `5 + 3600·1000`, not the
declared-lifetime expiry `5 + 0·1000` the claim requires. -/
theorem c9_token_expiry_counterexample :
    (getToken (⟨none, none⟩ : TokenState) 5
        (fun _ => .ok ⟨some "T", some 0⟩) 3 100).state.tokenExpiry = some 3600005 ∧
    (getToken (⟨none, none⟩ : TokenState) 5
        (fun _ => .ok ⟨some "T", some 0⟩) 3 100).state.tokenExpiry ≠ some (5 + 0 * 1000) := by
  constructor
  · decide
  · decide

/-- C3 (amended): when every attempt of `executePayment` (resp.
`refundPayment`) fails, the call rejects with a `BkashError` whose code
is the operation-specific `PAYMENT_EXECUTE_ERROR` (resp.
`REFUND_ERROR`) — but a failure event is published on every attempt, so
`maxRetries` failure events are emitted over the whole call, not exactly
one. -/
theorem c3_exhaustion_error_code_and_events
    (envE : Nat → OpEnv ExecutePaymentResponse) (envR : Nat → OpEnv RefundResponse)
    (body : Nat → Option String) (tokE tokR : Nat → String) (rd : RefundData) (m d : Nat)
    (hm : 1 ≤ m)
    (hE : ∀ i, 1 ≤ i → i ≤ m → envE i = ⟨true, .ok (tokE i), .error (body i)⟩)
    (hR : ∀ i, 1 ≤ i → i ≤ m → envR i = ⟨true, .ok (tokR i), .error (body i)⟩) :
    ((executePayment envE m d).result
        = .error (some ⟨"Failed to execute payment", "PAYMENT_EXECUTE_ERROR",
                        .upstream (body m)⟩) ∧
     (executePayment envE m d).trace.events
        = (List.range' 1 m).map
            (fun i => ⟨"payment.failed", .errInfo (.upstream (body i))⟩) ∧
     (executePayment envE m d).trace.events.length = m) ∧
    ((refundPayment rd envR m d).result
        = .error (some ⟨"Failed to process refund", "REFUND_ERROR",
                        .upstream (body m)⟩) ∧
     (refundPayment rd envR m d).trace.events
        = (List.range' 1 m).map
            (fun i => ⟨"refund.failed", .errInfo (.upstream (body i))⟩) ∧
     (refundPayment rd envR m d).trace.events.length = m) := by
  have hrunE := retryFrom_all_fail (executePaymentAttempt envE) m d
    (fun i => ⟨"Failed to execute payment", "PAYMENT_EXECUTE_ERROR", .upstream (body i)⟩)
    (fun i => { validations := 1, tokenCalls := 1, httpCalls := 1,
                events := [⟨"payment.failed", .errInfo (.upstream (body i))⟩] })
    (fun i h1 h2 => by simp [executePaymentAttempt, hE i h1 h2])
    m 1 none (by omega) (by omega) hm
  have hrunR := retryFrom_all_fail (refundPaymentAttempt rd envR) m d
    (fun i => ⟨"Failed to process refund", "REFUND_ERROR", .upstream (body i)⟩)
    (fun i => { validations := 1, tokenCalls := 1, httpCalls := 1,
                refundBodies := [rd],
                events := [⟨"refund.failed", .errInfo (.upstream (body i))⟩] })
    (fun i h1 h2 => by simp [refundPaymentAttempt, hR i h1 h2])
    m 1 none (by omega) (by omega) hm
  have hevE : (executePayment envE m d).trace.events
      = (List.range' 1 m).map (fun i => ⟨"payment.failed", .errInfo (.upstream (body i))⟩) := by
    show (retryFrom (executePaymentAttempt envE) m d 1 m none).trace.events = _
    rw [hrunE]
    rw [foldr_append_events]
    exact list_flatMap_singleton _ _
  have hevR : (refundPayment rd envR m d).trace.events
      = (List.range' 1 m).map (fun i => ⟨"refund.failed", .errInfo (.upstream (body i))⟩) := by
    show (retryFrom (refundPaymentAttempt rd envR) m d 1 m none).trace.events = _
    rw [hrunR]
    rw [foldr_append_events]
    exact list_flatMap_singleton _ _
  refine ⟨⟨?_, hevE, ?_⟩, ⟨?_, hevR, ?_⟩⟩
  · show (retryFrom (executePaymentAttempt envE) m d 1 m none).result = _
    rw [hrunE]
  · rw [hevE]; simp
  · show (retryFrom (refundPaymentAttempt rd envR) m d 1 m none).result = _
    rw [hrunR]
  · rw [hevR]; simp

/-- C3 witness: with `maxRetries = 3` and every attempt failing with an
upstream body, `executePayment` rejects with `PAYMENT_EXECUTE_ERROR`
and `refundPayment` with `REFUND_ERROR`, each after publishing 3
failure events. -/
theorem c3_exhaustion_error_code_and_events_witness :
    (executePayment (fun _ => ⟨true, .ok "tok", .error (some "errbody")⟩) 3 100).result
      = .error (some ⟨"Failed to execute payment", "PAYMENT_EXECUTE_ERROR",
                      .upstream (some "errbody")⟩) ∧
    (executePayment (fun _ => ⟨true, .ok "tok", .error (some "errbody")⟩) 3 100).trace.events.length = 3 ∧
    (refundPayment ⟨"P", "T", "10", "SKU1", "why"⟩
        (fun _ => ⟨true, .ok "tok", .error (some "errbody")⟩) 3 100).result
      = .error (some ⟨"Failed to process refund", "REFUND_ERROR",
                      .upstream (some "errbody")⟩) ∧
    (refundPayment ⟨"P", "T", "10", "SKU1", "why"⟩
        (fun _ => ⟨true, .ok "tok", .error (some "errbody")⟩) 3 100).trace.events.length = 3 := by
  have h := c3_exhaustion_error_code_and_events
    (fun _ => ⟨true, .ok "tok", .error (some "errbody")⟩)
    (fun _ => ⟨true, .ok "tok", .error (some "errbody")⟩)
    (fun _ => some "errbody") (fun _ => "tok") (fun _ => "tok")
    ⟨"P", "T", "10", "SKU1", "why"⟩ 3 100 (by omega)
    (fun i h1 h2 => rfl) (fun i h1 h2 => rfl)
  exact ⟨h.1.1, h.1.2.2, h.2.1, h.2.2.2⟩

/-- C3 counterexample: with `maxRetries = 3` and every attempt failing,
`executePayment` publishes 3 failure events over the call — not exactly
one as the claim states. -/
theorem c3_exhaustion_counterexample :
    (executePayment (fun _ => ⟨true, .ok "tok", .error (some "errbody")⟩) 3 100).trace.events
      = [⟨"payment.failed", .errInfo (.upstream (some "errbody"))⟩,
         ⟨"payment.failed", .errInfo (.upstream (some "errbody"))⟩,
         ⟨"payment.failed", .errInfo (.upstream (some "errbody"))⟩] ∧
    (executePayment (fun _ => ⟨true, .ok "tok", .error (some "errbody")⟩) 3 100).trace.events.length ≠ 1 := by
  constructor
  · decide
  · decide

/-- C4 (amended): a schema-rejected input never contacts the token
manager and performs no HTTP call — but in the canonical services
(modelled here on `createPayment`) the validation runs inside the
retried closure, so the call raises only after `maxRetries` validation
attempts, sleeps the full linear backoff, and rejects with the
validation error wrapped into the operation's `BkashError`; only the
legacy-shape `refundPaymentLegacy` validates outside the retry wrapper
and raises the raw validation error immediately, with no retry, no
sleep and no token or HTTP activity. -/
theorem c4_validation_policy (pr : String) (env : Nat → OpEnv CreatePaymentResponse)
    (inp : LegacyRefundData) (envR : Nat → OpEnv RefundResponse) (m d : Nat)
    (hm : 1 ≤ m) (hinvalid : ∀ i, env i = ⟨false, (env i).token, (env i).http⟩) :
    ((createPayment pr env m d).result
        = .error (some ⟨"Failed to create payment", "PAYMENT_CREATE_ERROR", .validationErr⟩) ∧
     (createPayment pr env m d).trace.tokenCalls = 0 ∧
     (createPayment pr env m d).trace.httpCalls = 0 ∧
     (createPayment pr env m d).trace.events = [] ∧
     (createPayment pr env m d).trace.validations = m ∧
     (createPayment pr env m d).slept = ∑ i ∈ Finset.Ico 1 m, d * i) ∧
    refundPaymentLegacy false inp envR m d
      = ⟨.error .rawValidation, { validations := 1 }, 0⟩ := by
  have hattempt : ∀ i, 1 ≤ i → i ≤ m →
      createPaymentAttempt pr env i =
        (.error ⟨"Failed to create payment", "PAYMENT_CREATE_ERROR", .validationErr⟩,
         { validations := 1 }) := by
    intro i h1 h2
    have hv : (env i).validationOk = false := by rw [hinvalid i]
    simp [createPaymentAttempt, hv]
  have hrun := retryFrom_all_fail (createPaymentAttempt pr env) m d
    (fun _ => ⟨"Failed to create payment", "PAYMENT_CREATE_ERROR", .validationErr⟩)
    (fun _ => { validations := 1 })
    hattempt m 1 none (by omega) (by omega) hm
  refine ⟨⟨?_, ?_, ?_, ?_, ?_, ?_⟩, ?_⟩
  · show (retryFrom (createPaymentAttempt pr env) m d 1 m none).result = _
    rw [hrun]
  · show (retryFrom (createPaymentAttempt pr env) m d 1 m none).trace.tokenCalls = 0
    rw [hrun, foldr_append_tokenCalls]
    exact list_sum_map_const_zero _
  · show (retryFrom (createPaymentAttempt pr env) m d 1 m none).trace.httpCalls = 0
    rw [hrun, foldr_append_httpCalls]
    exact list_sum_map_const_zero _
  · show (retryFrom (createPaymentAttempt pr env) m d 1 m none).trace.events = []
    rw [hrun, foldr_append_events]
    simp
  · show (retryFrom (createPaymentAttempt pr env) m d 1 m none).trace.validations = m
    rw [hrun, foldr_append_validations]
    rw [list_sum_map_const_one]
    simp
  · show (retryFrom (createPaymentAttempt pr env) m d 1 m none).slept = _
    rw [hrun]
  · simp [refundPaymentLegacy]

/-- C4 witness: with a schema-rejecting input and `maxRetries = 3`,
`createPayment` runs 3 validation attempts, sleeps 300 ms, touches
neither the token manager nor HTTP, and rejects wrapped; the legacy
refund with a rejecting input raises the raw validation error at once. -/
theorem c4_validation_policy_witness :
    (createPayment "ref" (fun _ => ⟨false, .ok "tok", .error none⟩) 3 100).result
      = .error (some ⟨"Failed to create payment", "PAYMENT_CREATE_ERROR", .validationErr⟩) ∧
    (createPayment "ref" (fun _ => ⟨false, .ok "tok", .error none⟩) 3 100).trace.tokenCalls = 0 ∧
    (createPayment "ref" (fun _ => ⟨false, .ok "tok", .error none⟩) 3 100).trace.httpCalls = 0 ∧
    (createPayment "ref" (fun _ => ⟨false, .ok "tok", .error none⟩) 3 100).trace.validations = 3 ∧
    (createPayment "ref" (fun _ => ⟨false, .ok "tok", .error none⟩) 3 100).slept = 300 ∧
    refundPaymentLegacy false ⟨"P", "T", ⟨255, 1⟩, none⟩
        (fun _ => ⟨true, .ok "tok", .error none⟩) 3 100
      = ⟨.error .rawValidation, { validations := 1 }, 0⟩ := by
  have h := c4_validation_policy "ref" (fun _ => ⟨false, .ok "tok", .error none⟩)
    ⟨"P", "T", ⟨255, 1⟩, none⟩ (fun _ => ⟨true, .ok "tok", .error none⟩) 3 100
    (by omega) (fun i => rfl)
  refine ⟨h.1.1, h.1.2.1, h.1.2.2.1, h.1.2.2.2.2.1, ?_, h.2⟩
  have := h.1.2.2.2.2.2
  rw [this]
  decide

/-- C4 counterexample: `createPayment` on a schema-rejected input (under
`maxRetries = 3`, `retryDelay = 100`) performs 3 validation attempts
instead of one, sleeps 300 ms instead of none, and rejects with the
validation failure wrapped into a `PAYMENT_CREATE_ERROR` `BkashError`
instead of the raw validation error. -/
theorem c4_validation_policy_counterexample :
    (createPayment "ref" (fun _ => ⟨false, .ok "tok", .error none⟩) 3 100).trace.validations = 3 ∧
    (createPayment "ref" (fun _ => ⟨false, .ok "tok", .error none⟩) 3 100).trace.validations ≠ 1 ∧
    (createPayment "ref" (fun _ => ⟨false, .ok "tok", .error none⟩) 3 100).slept = 300 ∧
    (createPayment "ref" (fun _ => ⟨false, .ok "tok", .error none⟩) 3 100).slept ≠ 0 ∧
    (createPayment "ref" (fun _ => ⟨false, .ok "tok", .error none⟩) 3 100).result
      = .error (some ⟨"Failed to create payment", "PAYMENT_CREATE_ERROR", .validationErr⟩) := by
  refine ⟨by decide, by decide, by decide, by decide, by decide⟩

/-- C5 (amended): the read-only transaction-service operations
(`queryPayment`, `checkTransactionStatus`, `searchTransaction`,
`searchTransactionLegacy`) publish no lifecycle event whether they
resolve or reject — but `checkRefundStatus` is an exception: it
publishes `refund.status.checked` on success (and
`refund.status.failed` on failure). -/
theorem c5_query_operations_events :
    (∀ env m d, (queryPayment env m d).trace.events = []) ∧
    (∀ env m d, (checkTransactionStatus env m d).trace.events = []) ∧
    (∀ env m d, (searchTransaction env m d).trace.events = []) ∧
    (∀ env m d, (searchTransactionLegacy env m d).trace.events = []) ∧
    (∀ req env m d (r : RefundStatusResponse) (tok : String), 1 ≤ m →
       env 1 = ⟨true, .ok tok, .ok r⟩ →
       (checkRefundStatus req env m d).trace.events
         = [⟨"refund.status.checked", .refundStatus req r⟩]) ∧
    (∀ req env m d (body : Nat → Option String) (tok : Nat → String), 1 ≤ m →
       (∀ i, 1 ≤ i → i ≤ m → env i = ⟨true, .ok (tok i), .error (body i)⟩) →
       (checkRefundStatus req env m d).trace.events
         = (List.range' 1 m).map
             (fun i => ⟨"refund.status.failed", .errInfo (.upstream (body i))⟩)) := by
  have hsearch : ∀ env m d, (searchTransaction env m d).trace.events = [] :=
    fun env m d =>
      retryFrom_no_events (searchTransactionAttempt env) m d
        (searchTransactionAttempt_no_events env) m 1 none
  refine ⟨?_, ?_, hsearch, ?_, ?_, ?_⟩
  · intro env m d
    exact retryFrom_no_events (queryPaymentAttempt env) m d
      (queryPaymentAttempt_no_events env) m 1 none
  · intro env m d
    exact retryFrom_no_events (checkTransactionStatusAttempt env) m d
      (checkTransactionStatusAttempt_no_events env) m 1 none
  · intro env m d
    have h := hsearch env m d
    rcases hr : (searchTransaction env m d).result with e | v <;>
      simp [searchTransactionLegacy, hr] <;> exact h
  · intro req env m d r tok hm henv
    have hattempt : checkRefundStatusAttempt req env 1 =
        (.ok r, { validations := 1, tokenCalls := 1, httpCalls := 1,
                  events := [⟨"refund.status.checked", .refundStatus req r⟩] }) := by
      simp [checkRefundStatusAttempt, henv]
    rw [show checkRefundStatus req env m d
        = retryOperation (checkRefundStatusAttempt req env) m d from rfl,
      retryOperation_first_ok _ m d _ _ hm hattempt]
  · intro req env m d body tok hm henv
    have hrun := retryFrom_all_fail (checkRefundStatusAttempt req env) m d
      (fun i => ⟨"Failed to check refund status", "REFUND_STATUS_ERROR", .upstream (body i)⟩)
      (fun i => { validations := 1, tokenCalls := 1, httpCalls := 1,
                  events := [⟨"refund.status.failed", .errInfo (.upstream (body i))⟩] })
      (fun i h1 h2 => by simp [checkRefundStatusAttempt, henv i h1 h2])
      m 1 none (by omega) (by omega) hm
    show (retryFrom (checkRefundStatusAttempt req env) m d 1 m none).trace.events = _
    rw [hrun, foldr_append_events]
    exact list_flatMap_singleton _ _

/-- C5 witness: concrete runs of the four query operations emit nothing
(on both a succeeding and a failing environment), a succeeding
`checkRefundStatus` emits `refund.status.checked`, and a
`checkRefundStatus` whose 3 attempts all fail emits one
`refund.status.failed` per attempt. -/
theorem c5_query_operations_events_witness :
    (queryPayment (fun _ => ⟨true, .ok "tok", .error (some "err")⟩) 3 100).trace.events = [] ∧
    (checkTransactionStatus (fun _ => ⟨false, .ok "tok", .error none⟩) 3 100).trace.events = [] ∧
    (searchTransaction (fun _ => ⟨true, .error ⟨"Failed to get bKash token", "TOKEN_ERROR", .noDetails⟩, .error none⟩) 3 100).trace.events = [] ∧
    (searchTransactionLegacy (fun _ => ⟨true, .ok "tok",
        .ok ⟨"0000", "Successful", "TRX9", "Completed", "Payment", "10", "BDT", "0170", "SH", "t0", "t1"⟩⟩) 3 100).trace.events = [] ∧
    (checkRefundStatus ⟨"P1", "T1"⟩ (fun _ => ⟨true, .ok "tok", .ok ⟨"T1", "100", "t2", []⟩⟩) 3 100).trace.events
      = [⟨"refund.status.checked", .refundStatus ⟨"P1", "T1"⟩ ⟨"T1", "100", "t2", []⟩⟩] ∧
    (checkRefundStatus ⟨"P1", "T1"⟩ (fun _ => ⟨true, .ok "tok", .error (some "errbody")⟩) 3 100).trace.events
      = [⟨"refund.status.failed", .errInfo (.upstream (some "errbody"))⟩,
         ⟨"refund.status.failed", .errInfo (.upstream (some "errbody"))⟩,
         ⟨"refund.status.failed", .errInfo (.upstream (some "errbody"))⟩] := by
  refine ⟨c5_query_operations_events.1 _ 3 100,
    c5_query_operations_events.2.1 _ 3 100,
    c5_query_operations_events.2.2.1 _ 3 100,
    c5_query_operations_events.2.2.2.1 _ 3 100,
    c5_query_operations_events.2.2.2.2.1 ⟨"P1", "T1"⟩ _ 3 100 ⟨"T1", "100", "t2", []⟩ "tok"
      (by omega) rfl,
    (c5_query_operations_events.2.2.2.2.2 ⟨"P1", "T1"⟩
        (fun _ => ⟨true, .ok "tok", .error (some "errbody")⟩) 3 100
        (fun _ => some "errbody") (fun _ => "tok")
        (by omega) (fun i h1 h2 => rfl)).trans (by decide)⟩

/-- C5 counterexample: `checkRefundStatus` — listed by the claim among
the read-only operations that must publish nothing — publishes a
`refund.status.checked` event on a successful run. -/
theorem c5_query_operations_counterexample :
    (checkRefundStatus ⟨"P1", "T1"⟩ (fun _ => ⟨true, .ok "tok", .ok ⟨"T1", "100", "t2", []⟩⟩) 3 100).trace.events
      = [⟨"refund.status.checked", .refundStatus ⟨"P1", "T1"⟩ ⟨"T1", "100", "t2", []⟩⟩] ∧
    (checkRefundStatus ⟨"P1", "T1"⟩ (fun _ => ⟨true, .ok "tok", .ok ⟨"T1", "100", "t2", []⟩⟩) 3 100).trace.events ≠ [] := by
  refine ⟨by decide, by decide⟩

/-- C6: for a legacy refund input with no reason, `refundPaymentLegacy`
issues exactly one downstream canonical refund call carrying
`{paymentId, trxId: transactionId, refundAmount: amount.toString(),
sku: "LEGACY", reason: "Customer request"}`, and synthesizes the legacy
response from the canonical one without a second upstream call:
`statusCode/statusMessage` are `("0000", "Successful")` exactly when
`refundTransactionStatus` is `"Completed"`, and `("0001", "Failed")`
otherwise. -/
theorem c6_legacy_refund_translation (inp : LegacyRefundData)
    (env : Nat → OpEnv RefundResponse) (m d : Nat) (r : RefundResponse) (tok : String)
    (hreason : inp.reason = none) (hm : 1 ≤ m) (henv : env 1 = ⟨true, .ok tok, .ok r⟩) :
    (refundPaymentLegacy true inp env m d).trace.refundBodies
      = [⟨inp.paymentId, inp.transactionId, inp.amount.toStr, "LEGACY", "Customer request"⟩] ∧
    (refundPaymentLegacy true inp env m d).trace.httpCalls = 1 ∧
    (refundPaymentLegacy true inp env m d).result
      = .ok ⟨if r.refundTransactionStatus = "Completed" then "0000" else "0001",
             if r.refundTransactionStatus = "Completed" then "Successful" else "Failed",
             inp.paymentId, r.originalTrxId, r.refundAmount, r.currency,
             r.refundTrxId, r.completedTime⟩ := by
  have hbody : legacyToCanonical inp
      = ⟨inp.paymentId, inp.transactionId, inp.amount.toStr, "LEGACY", "Customer request"⟩ := by
    simp [legacyToCanonical, legacyReasonOrDefault, hreason]
  have hattempt : refundPaymentAttempt (legacyToCanonical inp) env 1 =
      (.ok r, { validations := 1, tokenCalls := 1, httpCalls := 1,
                refundBodies := [legacyToCanonical inp],
                events := [⟨"refund.success", .refunded r⟩] }) := by
    simp [refundPaymentAttempt, henv]
  have hrun : refundPayment (legacyToCanonical inp) env m d =
      ⟨.ok r, { validations := 1, tokenCalls := 1, httpCalls := 1,
                refundBodies := [legacyToCanonical inp],
                events := [⟨"refund.success", .refunded r⟩] }, 0⟩ :=
    retryOperation_first_ok _ m d _ _ hm hattempt
  rw [hbody] at hrun
  refine ⟨?_, ?_, ?_⟩ <;>
    simp [refundPaymentLegacy, hbody, hrun, Trace.append]

/-- C6 witness: `{paymentId: "PAY1", transactionId: "TRX1", amount:
25.5}` with no reason issues the canonical body `{paymentId: "PAY1",
trxId: "TRX1", refundAmount: "25.5", sku: "LEGACY", reason: "Customer
request"}` in a single HTTP call, and a `"Completed"` canonical
response maps to `("0000", "Successful")`. -/
theorem c6_legacy_refund_translation_witness :
    (refundPaymentLegacy true ⟨"PAY1", "TRX1", ⟨255, 1⟩, none⟩
        (fun _ => ⟨true, .ok "tok",
          .ok ⟨"OTX1", "RTX1", "Completed", "100", "25.5", "BDT", "t9", "LEGACY", "Customer request"⟩⟩)
        3 100).trace.refundBodies
      = [⟨"PAY1", "TRX1", "25.5", "LEGACY", "Customer request"⟩] ∧
    (refundPaymentLegacy true ⟨"PAY1", "TRX1", ⟨255, 1⟩, none⟩
        (fun _ => ⟨true, .ok "tok",
          .ok ⟨"OTX1", "RTX1", "Completed", "100", "25.5", "BDT", "t9", "LEGACY", "Customer request"⟩⟩)
        3 100).trace.httpCalls = 1 ∧
    (refundPaymentLegacy true ⟨"PAY1", "TRX1", ⟨255, 1⟩, none⟩
        (fun _ => ⟨true, .ok "tok",
          .ok ⟨"OTX1", "RTX1", "Completed", "100", "25.5", "BDT", "t9", "LEGACY", "Customer request"⟩⟩)
        3 100).result
      = .ok ⟨"0000", "Successful", "PAY1", "OTX1", "25.5", "BDT", "RTX1", "t9"⟩ := by
  have h := c6_legacy_refund_translation ⟨"PAY1", "TRX1", ⟨255, 1⟩, none⟩
    (fun _ => ⟨true, .ok "tok",
      .ok ⟨"OTX1", "RTX1", "Completed", "100", "25.5", "BDT", "t9", "LEGACY", "Customer request"⟩⟩)
    3 100 ⟨"OTX1", "RTX1", "Completed", "100", "25.5", "BDT", "t9", "LEGACY", "Customer request"⟩
    "tok" rfl (by omega) rfl
  refine ⟨h.1.trans (by decide), h.2.1, h.2.2.trans (by decide)⟩

/-- C10: when the `executePayment` HTTP call succeeds, the method
resolves with the response data, and exactly one event is published
whose type is `payment.success` if and only if the response's
`statusCode` is `'0000'`, and `payment.failed` otherwise. -/
theorem c10_execute_event_type (env : Nat → OpEnv ExecutePaymentResponse) (m d : Nat)
    (r : ExecutePaymentResponse) (tok : String)
    (hm : 1 ≤ m) (henv : env 1 = ⟨true, .ok tok, .ok r⟩) :
    (executePayment env m d).result = .ok r ∧
    (executePayment env m d).trace.events
      = [⟨if r.statusCode = "0000" then "payment.success" else "payment.failed",
          .executed r⟩] ∧
    ((if r.statusCode = "0000" then ("payment.success" : String) else "payment.failed")
        = "payment.success" ↔ r.statusCode = "0000") := by
  have hattempt : executePaymentAttempt env 1 =
      (.ok r, { validations := 1, tokenCalls := 1, httpCalls := 1,
                events := [⟨if r.statusCode = "0000" then "payment.success" else "payment.failed",
                           .executed r⟩] }) := by
    simp [executePaymentAttempt, henv]
  have hrun := retryOperation_first_ok (executePaymentAttempt env) m d _ _ hm hattempt
  refine ⟨?_, ?_, ?_⟩
  · show (retryOperation (executePaymentAttempt env) m d).result = _
    rw [hrun]
  · show (retryOperation (executePaymentAttempt env) m d).trace.events = _
    rw [hrun]
  · by_cases h : r.statusCode = "0000" <;> simp [h]

/-- C10 witness: a response with `statusCode = "0000"` publishes
`payment.success`, and one with `statusCode = "2023"` publishes
`payment.failed`; both runs resolve with the response. -/
theorem c10_execute_event_type_witness :
    (executePayment (fun _ => ⟨true, .ok "tok",
        .ok ⟨"P1", "0000", "Successful", "0170", "ref", "t1", "TRX1", "Completed", "10", "BDT", "sale", "INV1"⟩⟩)
      3 100).result
      = .ok ⟨"P1", "0000", "Successful", "0170", "ref", "t1", "TRX1", "Completed", "10", "BDT", "sale", "INV1"⟩ ∧
    (executePayment (fun _ => ⟨true, .ok "tok",
        .ok ⟨"P1", "0000", "Successful", "0170", "ref", "t1", "TRX1", "Completed", "10", "BDT", "sale", "INV1"⟩⟩)
      3 100).trace.events
      = [⟨"payment.success",
          .executed ⟨"P1", "0000", "Successful", "0170", "ref", "t1", "TRX1", "Completed", "10", "BDT", "sale", "INV1"⟩⟩] ∧
    (executePayment (fun _ => ⟨true, .ok "tok",
        .ok ⟨"P2", "2023", "Insufficient balance", "0170", "ref", "t1", "TRX2", "Failed", "10", "BDT", "sale", "INV2"⟩⟩)
      3 100).trace.events
      = [⟨"payment.failed",
          .executed ⟨"P2", "2023", "Insufficient balance", "0170", "ref", "t1", "TRX2", "Failed", "10", "BDT", "sale", "INV2"⟩⟩] := by
  have h1 := c10_execute_event_type (fun _ => ⟨true, .ok "tok",
      .ok ⟨"P1", "0000", "Successful", "0170", "ref", "t1", "TRX1", "Completed", "10", "BDT", "sale", "INV1"⟩⟩)
    3 100 ⟨"P1", "0000", "Successful", "0170", "ref", "t1", "TRX1", "Completed", "10", "BDT", "sale", "INV1"⟩
    "tok" (by omega) rfl
  have h2 := c10_execute_event_type (fun _ => ⟨true, .ok "tok",
      .ok ⟨"P2", "2023", "Insufficient balance", "0170", "ref", "t1", "TRX2", "Failed", "10", "BDT", "sale", "INV2"⟩⟩)
    3 100 ⟨"P2", "2023", "Insufficient balance", "0170", "ref", "t1", "TRX2", "Failed", "10", "BDT", "sale", "INV2"⟩
    "tok" (by omega) rfl
  exact ⟨h1.1, h1.2.1.trans (by decide), h2.2.1.trans (by decide)⟩

/-- C8: with a webhook secret configured, a missing (or empty, hence JS
falsy) signature raises `WEBHOOK_SIGNATURE_MISSING` and a failing
verification raises `WEBHOOK_SIGNATURE_INVALID`, and neither error path
republishes anything; with no secret configured, no verification is
attempted and the payload is republished unconditionally. -/
theorem c8_handle_webhook :
    (∀ (sec : String) (pay : String) (sig : Option String), sec ≠ "" → strTruthy sig = false →
       handleWebhook (some sec) pay sig =
         ⟨.error ⟨"Webhook signature is required when webhook secret is configured",
            "WEBHOOK_SIGNATURE_MISSING", .noDetails⟩, []⟩) ∧
    (∀ (sec pay s : String), sec ≠ "" → s ≠ "" →
       verifyWebhookSignature (some sec) pay s = .ok false →
       handleWebhook (some sec) pay (some s) =
         ⟨.error ⟨"Invalid webhook signature", "WEBHOOK_SIGNATURE_INVALID", .noDetails⟩, []⟩) ∧
    (∀ (pay : String) (sig : Option String), handleWebhook none pay sig = ⟨.ok (), [pay]⟩) ∧
    (∀ (pay : String) (sig : Option String),
       handleWebhook (some "") pay sig = ⟨.ok (), [pay]⟩) := by
  refine ⟨?_, ?_, ?_, ?_⟩
  · intro sec pay sig hsec hsig
    have h1 : strTruthy (some sec) = true := by simp [strTruthy, hsec]
    simp [handleWebhook, h1, hsig]
  · intro sec pay s hsec hs hver
    have h1 : strTruthy (some sec) = true := by simp [strTruthy, hsec]
    have h2 : strTruthy (some s) = true := by simp [strTruthy, hs]
    simp [handleWebhook, h1, h2, hver]
  · intro pay sig
    simp [handleWebhook, strTruthy]
  · intro pay sig
    simp [handleWebhook, strTruthy]

/-- C8 witness: a configured secret with an absent signature raises
`WEBHOOK_SIGNATURE_MISSING`; a wrong same-shape signature raises
`WEBHOOK_SIGNATURE_INVALID`; with no secret configured the payload is
republished even with no signature — all on concrete inputs. -/
theorem c8_handle_webhook_witness :
    handleWebhook (some "secret") "hello" none =
      ⟨.error ⟨"Webhook signature is required when webhook secret is configured",
         "WEBHOOK_SIGNATURE_MISSING", .noDetails⟩, []⟩ ∧
    handleWebhook (some "secret") "hello" (some "00") =
      ⟨.error ⟨"Invalid webhook signature", "WEBHOOK_SIGNATURE_INVALID", .noDetails⟩, []⟩ ∧
    handleWebhook none "hello" none = ⟨.ok (), ["hello"]⟩ := by
  refine ⟨c8_handle_webhook.1 "secret" "hello" none (by decide) rfl, ?_,
    c8_handle_webhook.2.2.1 "hello" none⟩
  exact c8_handle_webhook.2.1 "secret" "hello" "00" (by decide) (by decide) (by decide)

/-- C7 (amended): with a secret configured,
`verifyWebhookSignature` (i) returns true on the correct hex-encoded
HMAC-SHA-256 of the payload; (ii) returns false — without throwing — on
any signature whose decoded length differs from the decoded digest
length; and (iii) returns false on any signature of the right decoded
length whose decoded bytes differ from the digest, which covers every
payload or signature mutation that changes the compared bytes.  The
claim's blanket statement that mutating one character of a correct
signature always flips the verdict is false: node's hex decoding is
case-insensitive, so changing only the case of a hex letter leaves the
decoded bytes — and the verdict — unchanged. -/
theorem c7_webhook_signature :
    (∀ (sec pay : String), sec ≠ "" →
       verifyWebhookSignature (some sec) pay (hmacSha256Hex sec pay) = .ok true) ∧
    (∀ (sec pay sig : String), sec ≠ "" →
       (bufferFromHex sig).length ≠ (bufferFromHex (hmacSha256Hex sec pay)).length →
       verifyWebhookSignature (some sec) pay sig = .ok false) ∧
    (∀ (sec pay sig : String), sec ≠ "" →
       (bufferFromHex sig).length = (bufferFromHex (hmacSha256Hex sec pay)).length →
       bufferFromHex sig ≠ bufferFromHex (hmacSha256Hex sec pay) →
       verifyWebhookSignature (some sec) pay sig = .ok false) := by
  refine ⟨?_, ?_, ?_⟩
  · intro sec pay hsec
    simp [verifyWebhookSignature, hsec]
  · intro sec pay sig hsec hlen
    have hne : (bufferFromHex (hmacSha256Hex sec pay)).length ≠ (bufferFromHex sig).length :=
      fun h => hlen h.symm
    simp [verifyWebhookSignature, hsec, hne]
  · intro sec pay sig hsec hlen hneq
    have hlen' : (bufferFromHex (hmacSha256Hex sec pay)).length = (bufferFromHex sig).length :=
      hlen.symm
    have hbeq : (bufferFromHex (hmacSha256Hex sec pay) == bufferFromHex sig) = false := by
      rw [beq_eq_false_iff_ne]
      exact fun h => hneq h.symm
    simp [verifyWebhookSignature, hsec, hlen', hbeq]

/-- C7 witness: for the secret `"secret"` and payload `"hello"`, the
correct signature verifies true; the short signature `"ab"` (decoded
length 1 ≠ 32) returns false without throwing; and an all-zero
signature of the correct decoded length returns false. -/
theorem c7_webhook_signature_witness :
    verifyWebhookSignature (some "secret") "hello" (hmacSha256Hex "secret" "hello") = .ok true ∧
    verifyWebhookSignature (some "secret") "hello" "ab" = .ok false ∧
    verifyWebhookSignature (some "secret") "hello"
      "0000000000000000000000000000000000000000000000000000000000000000" = .ok false := by
  refine ⟨c7_webhook_signature.1 "secret" "hello" (by decide), ?_, ?_⟩
  · exact c7_webhook_signature.2.1 "secret" "hello" "ab" (by decide) (by decide)
  · exact c7_webhook_signature.2.2 "secret" "hello"
      "0000000000000000000000000000000000000000000000000000000000000000"
      (by decide) (by decide) (by decide)

/-- C7 counterexample: the correct lowercase signature of `"hello"`
under the secret `"secret"` still verifies true after its third
character `'a'` is mutated to `'A'` — a one-character mutation of a
correct signature that does not make verification return false, because
node's hex decoder treats both cases alike. -/
theorem c7_webhook_signature_counterexample :
    hmacSha256Hex "secret" "hello"
      = "88aab3ede8d3adf94d26ab90d3bafd4a2083070c3bcce9c014ee04a443847c0b" ∧
    verifyWebhookSignature (some "secret") "hello"
      "88aab3ede8d3adf94d26ab90d3bafd4a2083070c3bcce9c014ee04a443847c0b" = .ok true ∧
    ("88Aab3ede8d3adf94d26ab90d3bafd4a2083070c3bcce9c014ee04a443847c0b" : String)
      ≠ "88aab3ede8d3adf94d26ab90d3bafd4a2083070c3bcce9c014ee04a443847c0b" ∧
    (("88Aab3ede8d3adf94d26ab90d3bafd4a2083070c3bcce9c014ee04a443847c0b".data.zip
        "88aab3ede8d3adf94d26ab90d3bafd4a2083070c3bcce9c014ee04a443847c0b".data).filter
      (fun p => p.1 != p.2)).length = 1 ∧
    verifyWebhookSignature (some "secret") "hello"
      "88Aab3ede8d3adf94d26ab90d3bafd4a2083070c3bcce9c014ee04a443847c0b" = .ok true := by
  refine ⟨by decide, by decide, by decide, by decide, by decide⟩

end Bkash
